import Mathlib

/-!
Verification of `main.py` of fa0311/palworld_notify.

The program polls a Palworld server over RCON, parses the `ShowPlayers`
CSV response with `pd.read_csv`, filters out sentinel rows
(`playeruid == 0`), drops the `steamid` column, diffs the result against
the previous snapshot with `pd.merge(..., how="outer", indicator=True)`,
dispatches notifications per joined/left row, optionally issues
`Save`/`Shutdown` when the server empties, and loops.

We embed the data flow of `PalworldNotify.check` and the `__main__` loop
shallowly: network fetches become explicit inputs, HTTP sink outcomes
become an explicit oracle list, and the commands issued to the console
and to the HTTP sinks become an explicit trace.
-/

/-- A row of the raw `ShowPlayers` table (`next_data_raw`): columns
`name`, `playeruid`, `steamid`. -/
structure RawRecord where
  name : String
  playeruid : Int
  steamid : Int
deriving DecidableEq, Repr

/-- A row after `drop(columns=["steamid"])` (`next_data` / `prev_data`). -/
structure Record where
  name : String
  playeruid : Int
deriving DecidableEq, Repr

/-- `next_data_raw.drop(columns=["steamid"])` applied to one row. -/
def dropSteamid (r : RawRecord) : Record := ⟨r.name, r.playeruid⟩

/-- Model of `next_data = next_data_raw[next_data_raw["playeruid"] != 0]`
followed by `next_data.drop(columns=["steamid"])` (main.py lines 104-105). -/
def filterDrop (raw : List RawRecord) : List Record :=
  (raw.filter (fun r => decide (r.playeruid ≠ 0))).map dropSteamid

/-- The `_merge` indicator column of `pd.merge(..., indicator=True)`. -/
inductive MergeTag
  | both
  | leftOnly
  | rightOnly
deriving DecidableEq, Repr

/-- Model of `pd.merge(left, right, how="outer", indicator=True)`: with no
`on=` it merges on all common columns, i.e. matches rows by equality of the whole
record (both tables have the same schema here and unique rows): each left
row appears tagged `both` or `left_only`, and each right row not present
in the left table is appended tagged `right_only`. -/
def outerMerge {α : Type} [DecidableEq α] (left right : List α) :
    List (α × MergeTag) :=
  left.map (fun r => (r, if r ∈ right then MergeTag.both else MergeTag.leftOnly))
    ++ (right.filter (fun r => decide (r ∉ left))).map
        (fun r => (r, MergeTag.rightOnly))

/-- Model of `join = outer_data[outer_data["_merge"] == "left_only"]`
(line 125): the left table is `next_data` (current), so these are the
joined rows. -/
def joinRows (cur prev : List Record) : List Record :=
  ((outerMerge cur prev).filter
    (fun p => decide (p.2 = MergeTag.leftOnly))).map Prod.fst

/-- Model of `leave = outer_data[outer_data["_merge"] == "right_only"]`
(line 126). -/
def leaveRows (cur prev : List Record) : List Record :=
  ((outerMerge cur prev).filter
    (fun p => decide (p.2 = MergeTag.rightOnly))).map Prod.fst

theorem outerMerge_left_leftOnly {α : Type} [DecidableEq α] (left right : List α) :
    (List.filter (fun p => decide (p.2 = MergeTag.leftOnly))
        (left.map (fun r =>
          (r, if r ∈ right then MergeTag.both else MergeTag.leftOnly)))).map Prod.fst
      = left.filter (fun r => decide (r ∉ right)) := by
  induction left with
  | nil => rfl
  | cons c cs ih =>
    by_cases h : c ∈ right <;> simp [List.filter_cons, h, ih]

theorem outerMerge_right_leftOnly {α : Type} [DecidableEq α] (xs : List α) :
    (List.filter (fun p => decide (p.2 = MergeTag.leftOnly))
        (xs.map (fun r => (r, MergeTag.rightOnly)))).map Prod.fst = [] := by
  induction xs with
  | nil => rfl
  | cons c cs ih => simp [List.filter_cons, ih]

theorem outerMerge_left_rightOnly {α : Type} [DecidableEq α] (left right : List α) :
    (List.filter (fun p => decide (p.2 = MergeTag.rightOnly))
        (left.map (fun r =>
          (r, if r ∈ right then MergeTag.both else MergeTag.leftOnly)))).map Prod.fst
      = [] := by
  induction left with
  | nil => rfl
  | cons c cs ih =>
    by_cases h : c ∈ right <;> simp [List.filter_cons, h, ih]

theorem outerMerge_right_rightOnly {α : Type} [DecidableEq α] (xs : List α) :
    (List.filter (fun p => decide (p.2 = MergeTag.rightOnly))
        (xs.map (fun r => (r, MergeTag.rightOnly)))).map Prod.fst = xs := by
  induction xs with
  | nil => rfl
  | cons c cs ih => simpa [List.filter_cons] using ih

theorem joinRows_eq (cur prev : List Record) :
    joinRows cur prev = cur.filter (fun r => decide (r ∉ prev)) := by
  unfold joinRows outerMerge
  rw [List.filter_append, List.map_append, outerMerge_left_leftOnly,
    outerMerge_right_leftOnly, List.append_nil]

theorem leaveRows_eq (cur prev : List Record) :
    leaveRows cur prev = prev.filter (fun r => decide (r ∉ cur)) := by
  unfold leaveRows outerMerge
  rw [List.filter_append, List.map_append, outerMerge_left_rightOnly,
    outerMerge_right_rightOnly, List.nil_append]

/-- One piece of a Python format string: literal text or a `{key}`
placeholder. -/
inductive TItem
  | lit (s : String)
  | ph (key : String)
deriving DecidableEq, Repr

/-- A message template such as `"{name} ({steamid}) has joined the server."`. -/
abbrev Template : Type := List TItem

/-- Model of Python `template.format(**data)`: substitutes each placeholder
from the keyword map; a placeholder key absent from the map raises
`KeyError`, modelled as `Except.error` carrying the missing key. -/
def renderTemplate (fields : List (String × String)) : Template → Except String String
  | [] => Except.ok ""
  | TItem.lit s :: rest => (renderTemplate fields rest).map (fun t => s ++ t)
  | TItem.ph k :: rest =>
    match fields.lookup k with
    | some v => (renderTemplate fields rest).map (fun t => v ++ t)
    | none => Except.error k

/-- The textual value pandas gives the `_merge` indicator column. -/
def MergeTag.str : MergeTag → String
  | both => "both"
  | leftOnly => "left_only"
  | rightOnly => "right_only"

/-- The keyword map `**data` for a row of `outer_raw_data` (lines 133-135):
the raw columns plus the `_merge` indicator column. -/
def rowFields (p : RawRecord × MergeTag) : List (String × String) :=
  [("name", p.1.name), ("playeruid", toString p.1.playeruid),
   ("steamid", toString p.1.steamid), ("_merge", p.2.str)]

/-- The fields of `Settings` that `check` and the main loop read. -/
structure Env where
  lineNotifyToken : Option String
  discordWebhookUrl : Option String
  joinMessage : Template
  leaveMessage : Template
  joinBroadcastMessage : Template
  leaveBroadcastMessage : Template
  restartOnLastLeave : Bool
  waitTime : Nat

/-- A command issued to the RCON console or an HTTP post to a sink, in
issue order. -/
inductive Cmd
  | showPlayers
  | broadcast (text : String)
  | lineNotify (text : String)
  | discordPost (text : String)
  | save
  | shutdown (grace : String)
deriving DecidableEq, Repr

/-- Outcome of one `requests.post` call: an HTTP response with some status
code (never raises — the code never calls `raise_for_status`), or a raised
exception (timeout, connection error). -/
inductive SinkOutcome
  | http (status : Nat)
  | exn
deriving DecidableEq, Repr

/-- Model of `text_broadcast.replace(" ", "_")` (lines 138 and 151): for
the one-character pattern `" "`, Python's `str.replace` maps every space
character to an underscore. -/
def underscoreSpaces (s : String) : String :=
  String.mk (s.data.map (fun c => if c = ' ' then '_' else c))

/-- The exceptions that can escape `PalworldNotify.check`. -/
inductive CheckError
  | parseErr
  | indexErr
  | keyErr (key : String)
  | sinkExn
deriving DecidableEq, Repr

/-- Pop the next sink outcome from the oracle; an exhausted oracle means
the post succeeds with status 200. -/
def takeOutcome : List SinkOutcome → SinkOutcome × List SinkOutcome
  | [] => (SinkOutcome.http 200, [])
  | o :: rest => (o, rest)

/-- Model of lines 140-143 (and 153-156): the two guarded sink posts for one
event's text. Each post is attempted only when its credential is set; the
HTTP status of a completed post is ignored, and a raised exception
propagates immediately. -/
def sendPosts (env : Env) (text : String) (outs : List SinkOutcome) :
    List Cmd × List SinkOutcome × Option CheckError :=
  match env.lineNotifyToken with
  | some _ =>
    match (takeOutcome outs).1 with
    | SinkOutcome.exn =>
      ([Cmd.lineNotify text], (takeOutcome outs).2, some CheckError.sinkExn)
    | SinkOutcome.http _ =>
      match env.discordWebhookUrl with
      | some _ =>
        match (takeOutcome (takeOutcome outs).2).1 with
        | SinkOutcome.exn =>
          ([Cmd.lineNotify text, Cmd.discordPost text],
            (takeOutcome (takeOutcome outs).2).2, some CheckError.sinkExn)
        | SinkOutcome.http _ =>
          ([Cmd.lineNotify text, Cmd.discordPost text],
            (takeOutcome (takeOutcome outs).2).2, none)
      | none => ([Cmd.lineNotify text], (takeOutcome outs).2, none)
  | none =>
    match env.discordWebhookUrl with
    | some _ =>
      match (takeOutcome outs).1 with
      | SinkOutcome.exn =>
        ([Cmd.discordPost text], (takeOutcome outs).2, some CheckError.sinkExn)
      | SinkOutcome.http _ => ([Cmd.discordPost text], (takeOutcome outs).2, none)
    | none => ([], outs, none)

/-- Model of one pass of the body of the `for _, row in join.iterrows()`
loop (lines 132-143; the leave loop 145-156 is identical up to templates):
look up the first `outer_raw_data` row with the event's `playeruid`
(`.iloc[0]` raises `IndexError` on an empty selection), render the private
and broadcast templates, replace spaces by underscores in the broadcast
text, issue the `Broadcast` command, then the guarded sink posts. -/
def dispatchEvent (env : Env) (msgT broadcastT : Template)
    (outerRawData : List (RawRecord × MergeTag)) (uid : Int)
    (outs : List SinkOutcome) :
    List Cmd × List SinkOutcome × Option CheckError :=
  match outerRawData.filter (fun p => decide (p.1.playeruid = uid)) with
  | [] => ([], outs, some CheckError.indexErr)
  | d :: _ =>
    match renderTemplate (rowFields d) msgT with
    | Except.error k => ([], outs, some (CheckError.keyErr k))
    | Except.ok text =>
      match renderTemplate (rowFields d) broadcastT with
      | Except.error k => ([], outs, some (CheckError.keyErr k))
      | Except.ok tb =>
        (Cmd.broadcast (underscoreSpaces tb) :: (sendPosts env text outs).1,
          (sendPosts env text outs).2)

/-- The full `for` loop over one event class: events are dispatched in
order, and an exception from one event's dispatch propagates, skipping the
remaining events. -/
def dispatchEvents (env : Env) (msgT broadcastT : Template)
    (outerRawData : List (RawRecord × MergeTag)) :
    List Int → List SinkOutcome → List Cmd × List SinkOutcome × Option CheckError
  | [], outs => ([], outs, none)
  | uid :: rest, outs =>
    match (dispatchEvent env msgT broadcastT outerRawData uid outs).2.2 with
    | some e =>
      ((dispatchEvent env msgT broadcastT outerRawData uid outs).1,
        (dispatchEvent env msgT broadcastT outerRawData uid outs).2.1, some e)
    | none =>
      ((dispatchEvent env msgT broadcastT outerRawData uid outs).1
          ++ (dispatchEvents env msgT broadcastT outerRawData rest
                (dispatchEvent env msgT broadcastT outerRawData uid outs).2.1).1,
        (dispatchEvents env msgT broadcastT outerRawData rest
          (dispatchEvent env msgT broadcastT outerRawData uid outs).2.1).2)

/-- The mutable state of the `PalworldNotify` object: `prev_data` and
`prev_data_raw`, both `None` before the first successful poll. -/
structure LoopState where
  prevData : Option (List Record)
  prevDataRaw : Option (List RawRecord)
deriving DecidableEq, Repr

/-- The dispatch pass over the `join` rows (lines 132-143): the snapshots
diffed are the filtered tables — `prev_data` read through the line 107-108
seeding — while row lookup happens in `outer_raw_data`, the outer merge of
the raw (steamid-included, sentinel-included) tables. -/
def joinDispatch (env : Env) (st : LoopState) (nextRaw : List RawRecord)
    (outs : List SinkOutcome) :
    List Cmd × List SinkOutcome × Option CheckError :=
  dispatchEvents env env.joinMessage env.joinBroadcastMessage
    (outerMerge nextRaw (st.prevDataRaw.getD nextRaw))
    ((joinRows (filterDrop nextRaw) (st.prevData.getD (filterDrop nextRaw))).map
      Record.playeruid) outs

/-- The dispatch pass over the `leave` rows (lines 145-156). -/
def leaveDispatch (env : Env) (st : LoopState) (nextRaw : List RawRecord)
    (outs : List SinkOutcome) :
    List Cmd × List SinkOutcome × Option CheckError :=
  dispatchEvents env env.leaveMessage env.leaveBroadcastMessage
    (outerMerge nextRaw (st.prevDataRaw.getD nextRaw))
    ((leaveRows (filterDrop nextRaw) (st.prevData.getD (filterDrop nextRaw))).map
      Record.playeruid) outs

/-- Model of lines 158-165: when `restart_on_last_leave` is set, the
current snapshot is empty and the previous one (after seeding) was not,
issue `Save` then `Shutdown 5`. -/
def shutdownCmds (env : Env) (st : LoopState) (nextRaw : List RawRecord) :
    List Cmd :=
  if env.restartOnLastLeave ∧ filterDrop nextRaw = []
      ∧ st.prevData.getD (filterDrop nextRaw) ≠ [] then
    [Cmd.save, Cmd.shutdown "5"]
  else []

/-- Model of `PalworldNotify.check` (lines 99-168). The network fetch and
CSV parse are summarised by `fetch`: `Except.error` when `ShowPlayers` or
`pd.read_csv` raised, `Except.ok` carrying the parsed raw table otherwise.
`outs` is the oracle of HTTP sink outcomes, consumed in call order.
Returns the issued command trace, the state of the object after the call
(the `prev_data`/`prev_data_raw` seeding at lines 107-110 mutates the
object even when a later exception aborts the cycle before the final
assignment at lines 167-168), and the escaped exception, if any. -/
def check (env : Env) (st : LoopState)
    (fetch : Except Unit (List RawRecord)) (outs : List SinkOutcome) :
    List Cmd × LoopState × Option CheckError :=
  match fetch with
  | Except.error _ => ([Cmd.showPlayers], st, some CheckError.parseErr)
  | Except.ok nextRaw =>
    match (joinDispatch env st nextRaw outs).2.2 with
    | some e =>
      (Cmd.showPlayers :: (joinDispatch env st nextRaw outs).1,
        ⟨some (st.prevData.getD (filterDrop nextRaw)),
          some (st.prevDataRaw.getD nextRaw)⟩, some e)
    | none =>
      match (leaveDispatch env st nextRaw
          (joinDispatch env st nextRaw outs).2.1).2.2 with
      | some e =>
        (Cmd.showPlayers :: ((joinDispatch env st nextRaw outs).1
            ++ (leaveDispatch env st nextRaw
                  (joinDispatch env st nextRaw outs).2.1).1),
          ⟨some (st.prevData.getD (filterDrop nextRaw)),
            some (st.prevDataRaw.getD nextRaw)⟩, some e)
      | none =>
        (Cmd.showPlayers :: ((joinDispatch env st nextRaw outs).1
            ++ (leaveDispatch env st nextRaw
                  (joinDispatch env st nextRaw outs).2.1).1
            ++ shutdownCmds env st nextRaw),
          ⟨some (filterDrop nextRaw), some nextRaw⟩, none)

/-- The message text the outer handler logs for an exception. -/
def errText : CheckError → String
  | CheckError.parseErr => "ParserError"
  | CheckError.indexErr => "IndexError"
  | CheckError.keyErr k => "KeyError: " ++ k
  | CheckError.sinkExn => "RequestException"

/-- What one iteration of the outer loop does after `check` returns:
either the process sleeps and continues (with the listed log lines), or
the exception is re-raised and the process exits. -/
inductive IterResult
  | continues (logs : List String) (sleptSeconds : Nat)
  | exits (e : CheckError)
deriving DecidableEq, Repr

/-- Model of one iteration of the `while True:` body (lines 175-185):
`check` then `sleep` inside `try`; on an exception, `__debug__` (true
under the default interpreter, false under `python -O`) decides between
re-raising — terminating the process — and logging both messages then
sleeping one interval. -/
def loopIter (debug : Bool) (env : Env) (st : LoopState)
    (fetch : Except Unit (List RawRecord)) (outs : List SinkOutcome) :
    List Cmd × LoopState × IterResult :=
  match check env st fetch outs with
  | (cmds, st2, none) => (cmds, st2, IterResult.continues [] env.waitTime)
  | (cmds, st2, some e) =>
    if debug then (cmds, st2, IterResult.exits e)
    else (cmds, st2, IterResult.continues
      ["Error: " ++ errText e,
       "Restarting in " ++ toString env.waitTime ++ " seconds..."] env.waitTime)

/-- A parsed CSV cell: a missing value (pandas NaN) or a string value. -/
inductive Cell
  | na
  | val (s : String)
deriving DecidableEq, Repr

/-- Model of the pandas C tokenizer on one data row, against the expected
field count `ncols`: a row with more fields raises `ParserError`
("Error tokenizing data"); a row with fewer fields is padded with NaN on
the right; nothing else about a row's content makes the tokenizer
fail. -/
def parseRow (ncols : Nat) (row : List String) : Except String (List Cell) :=
  if ncols < row.length then Except.error "Error tokenizing data"
  else Except.ok (row.map Cell.val ++ List.replicate (ncols - row.length) Cell.na)

/-- The data rows parsed one by one against a fixed expected field count;
the tokenizer stops at the first offending row. -/
def readCsvRows (width : Nat) : List (List String) → Except String (List (List Cell))
  | [] => Except.ok []
  | row :: rest =>
    match parseRow width row, readCsvRows width rest with
    | Except.error e, _ => Except.error e
    | Except.ok _, Except.error e => Except.error e
    | Except.ok cells, Except.ok others => Except.ok (cells :: others)

/-- Model of `pd.read_csv` (line 102) on a response whose header row has
`header.length` column names, followed by the data rows. The expected
field count is the header's width — unless the first data row is wider:
pandas then promotes the extra leading fields to the index instead of
raising, and the first data row's width becomes the expected count, so
only a later row wider than that raises. We keep each parsed row as a
full width-wide cell list (index cells included). -/
def readCsv (header : List String) : List (List String) → Except String (List (List Cell))
  | [] => Except.ok []
  | first :: rest => readCsvRows (max header.length first.length) (first :: rest)

/-- Whether a cell's text parses as an integer: an optional leading minus
sign followed by one or more decimal digits. -/
def isIntString (s : String) : Bool :=
  match s.data with
  | [] => false
  | '-' :: rest => !rest.isEmpty && rest.all Char.isDigit
  | l => l.all Char.isDigit

/-- The integer value of a numeric cell. -/
def intValue (s : String) : Int :=
  match s.data with
  | '-' :: rest => -((rest.foldl (fun acc c => 10 * acc + (c.toNat - 48)) 0 : Nat) : Int)
  | l => ((l.foldl (fun acc c => 10 * acc + (c.toNat - 48)) 0 : Nat) : Int)

/-- pandas dtype inference for one column: numeric when every non-missing
cell parses as an integer, object (string) dtype otherwise. -/
def columnNumeric (cells : List Cell) : Bool :=
  cells.all fun c =>
    match c with
    | Cell.na => true
    | Cell.val s => isIntString s

/-- The elementwise mask `next_data_raw["playeruid"] != 0` (line 104) on
one cell of the identity column: in a numeric column, the integer value is
compared with 0 (NaN compares unequal); in an object-dtype column every
value — a string — compares unequal to the integer 0, so every row is
kept. -/
def cellKeptByFilter (numeric : Bool) (c : Cell) : Bool :=
  if numeric then
    match c with
    | Cell.na => true
    | Cell.val s => decide (intValue s ≠ 0)
  else true

theorem joinRows_self (A : List Record) : joinRows A A = [] := by
  rw [joinRows_eq]
  exact List.filter_eq_nil_iff.mpr (fun r hr => by simp [hr])

theorem leaveRows_self (A : List Record) : leaveRows A A = [] := by
  rw [leaveRows_eq]
  exact List.filter_eq_nil_iff.mpr (fun r hr => by simp [hr])

/-- C9: for all snapshot pairs (A, B), the joined rows of
diff(previous = A, current = B) are exactly the left rows of
diff(previous = B, current = A): both are the rows of B absent from A. -/
theorem C9_join_leave_swap_symmetry (A B : List Record) :
    joinRows B A = leaveRows A B := by
  rw [joinRows_eq, leaveRows_eq]

/-- C1 counterexample: with previous = {uid 1 "Alice"} and
current = {uid 1 "Alicia"} — the same playeruid present in both
snapshots, only the non-identity `name` field differing — the diff
reports both a Joined and a Left event for uid 1, because `pd.merge`
matches on all common columns, not on `playeruid` alone. -/
theorem C1_counterexample :
    ((1 : Int) ∈ ([⟨"Alicia", 1⟩] : List Record).map Record.playeruid)
    ∧ ((1 : Int) ∈ ([⟨"Alice", 1⟩] : List Record).map Record.playeruid)
    ∧ joinRows [⟨"Alicia", 1⟩] [⟨"Alice", 1⟩] = [⟨"Alicia", 1⟩]
    ∧ leaveRows [⟨"Alicia", 1⟩] [⟨"Alice", 1⟩] = [⟨"Alice", 1⟩] := by
  refine ⟨by decide, by decide, by decide, by decide⟩

/-- C1 (amended): the diff matches rows by equality of the entire
steamid-dropped record, not by `playeruid` alone: a record present with
identical kept fields in both snapshots generates no Joined and no Left
event, and the claim's scenario holds as stated, Bob's row being
identical in both snapshots. -/
theorem C1_amended_whole_record_matching :
    (∀ (cur prev : List Record) (r : Record), r ∈ cur → r ∈ prev →
        r ∉ joinRows cur prev ∧ r ∉ leaveRows cur prev)
    ∧ joinRows [⟨"Bob", 2⟩, ⟨"Carol", 3⟩] [⟨"Alice", 1⟩, ⟨"Bob", 2⟩] = [⟨"Carol", 3⟩]
    ∧ leaveRows [⟨"Bob", 2⟩, ⟨"Carol", 3⟩] [⟨"Alice", 1⟩, ⟨"Bob", 2⟩] = [⟨"Alice", 1⟩] := by
  refine ⟨?_, by decide, by decide⟩
  intro cur prev r hc hp
  constructor
  · rw [joinRows_eq]
    intro hmem
    rcases List.mem_filter.mp hmem with ⟨-, hdec⟩
    simp at hdec
    exact hdec hp
  · rw [leaveRows_eq]
    intro hmem
    rcases List.mem_filter.mp hmem with ⟨-, hdec⟩
    simp at hdec
    exact hdec hc

/-- C1 amended witness: Bob, present identically in both snapshots of the
scenario, generates no event. -/
theorem C1_amended_witness :
    ((⟨"Bob", 2⟩ : Record) ∈ ([⟨"Bob", 2⟩, ⟨"Carol", 3⟩] : List Record))
    ∧ ((⟨"Bob", 2⟩ : Record) ∈ ([⟨"Alice", 1⟩, ⟨"Bob", 2⟩] : List Record))
    ∧ ((⟨"Bob", 2⟩ : Record) ∉ joinRows [⟨"Bob", 2⟩, ⟨"Carol", 3⟩] [⟨"Alice", 1⟩, ⟨"Bob", 2⟩]
      ∧ (⟨"Bob", 2⟩ : Record) ∉ leaveRows [⟨"Bob", 2⟩, ⟨"Carol", 3⟩] [⟨"Alice", 1⟩, ⟨"Bob", 2⟩]) :=
  ⟨by decide, by decide,
    C1_amended_whole_record_matching.1 _ _ _ (by decide) (by decide)⟩

/-- C6: the snapshot used for diffing is the uid-filtered table, so no
snapshot row carries the sentinel uid 0, and no Joined or Left event ever
carries uid 0, whatever the raw tables contain. -/
theorem C6_sentinel_rows_never_in_snapshot :
    (∀ (raw : List RawRecord) (r : Record), r ∈ filterDrop raw → r.playeruid ≠ 0)
    ∧ (∀ (rawCur rawPrev : List RawRecord) (r : Record),
        r ∈ joinRows (filterDrop rawCur) (filterDrop rawPrev)
          ∨ r ∈ leaveRows (filterDrop rawCur) (filterDrop rawPrev) →
        r.playeruid ≠ 0) := by
  have base : ∀ (raw : List RawRecord) (r : Record),
      r ∈ filterDrop raw → r.playeruid ≠ 0 := by
    intro raw r hr
    rcases List.mem_map.mp hr with ⟨rr, hrr, hEq⟩
    rcases List.mem_filter.mp hrr with ⟨-, hdec⟩
    simp at hdec
    rw [← hEq]
    exact hdec
  refine ⟨base, ?_⟩
  intro rawCur rawPrev r hr
  rcases hr with hj | hl
  · rw [joinRows_eq] at hj
    exact base rawCur r (List.mem_filter.mp hj).1
  · rw [leaveRows_eq] at hl
    exact base rawPrev r (List.mem_filter.mp hl).1

/-- C6 witness: a table with a sentinel row. -/
theorem C6_witness :
    (⟨"a", 1⟩ : Record) ∈ filterDrop [⟨"a", 1, 7⟩, ⟨"x", 0, 9⟩]
    ∧ (⟨"a", 1⟩ : Record).playeruid ≠ 0 :=
  ⟨by decide,
    C6_sentinel_rows_never_in_snapshot.1 [⟨"a", 1, 7⟩, ⟨"x", 0, 9⟩] ⟨"a", 1⟩ (by decide)⟩

/-- A concrete configuration used by the witnesses: both sinks set, the
default-shaped templates, shutdown-on-empty on, five-second interval. -/
def envW : Env :=
  ⟨some "tok", some "url",
    [TItem.ph "name", TItem.lit " joined"],
    [TItem.ph "name", TItem.lit " left"],
    [TItem.ph "name", TItem.lit " joined"],
    [TItem.ph "name", TItem.lit " left"],
    true, 5⟩

/-- C7: on the first successful poll (both previous tables `None`), the
previous snapshot is seeded to the current one, the diff yields no Joined
and no Left event, and the cycle issues nothing beyond the `ShowPlayers`
fetch, ending with previous = current — whatever the first snapshot is. -/
theorem C7_first_poll_no_events
    (env : Env) (st : LoopState) (nextRaw : List RawRecord) (outs : List SinkOutcome)
    (h1 : st.prevData = none) (h2 : st.prevDataRaw = none) :
    joinRows (filterDrop nextRaw) ((st.prevData).getD (filterDrop nextRaw)) = []
    ∧ leaveRows (filterDrop nextRaw) ((st.prevData).getD (filterDrop nextRaw)) = []
    ∧ check env st (Except.ok nextRaw) outs
        = ([Cmd.showPlayers], ⟨some (filterDrop nextRaw), some nextRaw⟩, none) := by
  refine ⟨by rw [h1]; exact joinRows_self _, by rw [h1]; exact leaveRows_self _, ?_⟩
  unfold check joinDispatch leaveDispatch shutdownCmds
  simp only [h1, h2, Option.getD_none, joinRows_self, leaveRows_self, List.map_nil]
  simp only [dispatchEvents]
  rw [if_neg]
  · simp
  · rintro ⟨-, hnil, hne⟩
    exact hne hnil

/-- C7 witness: a concrete first poll with one player online. -/
theorem C7_witness :
    (⟨none, none⟩ : LoopState).prevData = none
    ∧ (⟨none, none⟩ : LoopState).prevDataRaw = none
    ∧ (joinRows (filterDrop [⟨"Alice", 1, 76⟩])
          (((⟨none, none⟩ : LoopState).prevData).getD (filterDrop [⟨"Alice", 1, 76⟩])) = []
      ∧ leaveRows (filterDrop [⟨"Alice", 1, 76⟩])
          (((⟨none, none⟩ : LoopState).prevData).getD (filterDrop [⟨"Alice", 1, 76⟩])) = []
      ∧ check envW ⟨none, none⟩ (Except.ok [⟨"Alice", 1, 76⟩]) []
          = ([Cmd.showPlayers],
              ⟨some (filterDrop [⟨"Alice", 1, 76⟩]), some [⟨"Alice", 1, 76⟩]⟩, none)) :=
  ⟨rfl, rfl, C7_first_poll_no_events envW ⟨none, none⟩ [⟨"Alice", 1, 76⟩] [] rfl rfl⟩

/-- C2 counterexample: under the default interpreter (`__debug__` true),
a cycle whose `ShowPlayers` response fails to parse makes the handler
re-raise the exception, and the process exits instead of retrying. -/
theorem C2_counterexample :
    loopIter true envW ⟨none, none⟩ (Except.error ()) []
      = ([Cmd.showPlayers], ⟨none, none⟩, IterResult.exits CheckError.parseErr) := by
  rfl

/-- C2 (amended): only when Python runs with `-O` (`__debug__` false) is
every cycle error caught at the loop boundary, logged with its message,
followed by a sleep of one interval; the iteration then always continues.
Under the default interpreter the handler re-raises and the process
exits. -/
theorem C2_amended_catch_only_without_debug :
    (∀ (env : Env) (st : LoopState) (fetch : Except Unit (List RawRecord))
        (outs : List SinkOutcome),
      ∃ logs, (loopIter false env st fetch outs).2.2
        = IterResult.continues logs env.waitTime)
    ∧ (∀ (env : Env) (st : LoopState) (fetch : Except Unit (List RawRecord))
        (outs : List SinkOutcome) (e : CheckError),
      (check env st fetch outs).2.2 = some e →
      (loopIter false env st fetch outs).2.2
          = IterResult.continues
              ["Error: " ++ errText e,
               "Restarting in " ++ toString env.waitTime ++ " seconds..."]
              env.waitTime
        ∧ (loopIter true env st fetch outs).2.2 = IterResult.exits e) := by
  constructor
  · intro env st fetch outs
    unfold loopIter
    rcases hc : check env st fetch outs with ⟨cmds, st2, err⟩
    cases err with
    | none => exact ⟨[], rfl⟩
    | some e =>
      exact ⟨["Error: " ++ errText e,
        "Restarting in " ++ toString env.waitTime ++ " seconds..."], rfl⟩
  · intro env st fetch outs e he
    unfold loopIter
    rcases hc : check env st fetch outs with ⟨cmds, st2, err⟩
    rw [hc] at he
    simp only at he
    rw [he]
    exact ⟨rfl, rfl⟩

/-- C2 witness: the amended behavior at a concrete failing cycle. -/
theorem C2_witness :
    (check envW ⟨none, none⟩ (Except.error ()) []).2.2 = some CheckError.parseErr
    ∧ ((loopIter false envW ⟨none, none⟩ (Except.error ()) []).2.2
        = IterResult.continues
            ["Error: " ++ errText CheckError.parseErr,
             "Restarting in " ++ toString envW.waitTime ++ " seconds..."]
            envW.waitTime
      ∧ (loopIter true envW ⟨none, none⟩ (Except.error ()) []).2.2
        = IterResult.exits CheckError.parseErr) :=
  ⟨rfl, C2_amended_catch_only_without_debug.2 envW ⟨none, none⟩
    (Except.error ()) [] CheckError.parseErr rfl⟩

/-- No outcome in the oracle is a raised exception: every post completes
with some HTTP status (any code — 200, 404, 500, ...). -/
def NoExn (outs : List SinkOutcome) : Prop :=
  ∀ o ∈ outs, o ≠ SinkOutcome.exn

theorem takeOutcome_noExn (outs : List SinkOutcome) (h : NoExn outs) :
    (takeOutcome outs).1 ≠ SinkOutcome.exn ∧ NoExn (takeOutcome outs).2 := by
  cases outs with
  | nil =>
    exact ⟨by simp [takeOutcome], fun o ho => absurd ho (List.not_mem_nil o)⟩
  | cons o rest =>
    exact ⟨h o (List.mem_cons_self o rest), fun x hx => h x (List.mem_cons_of_mem o hx)⟩

theorem sendPosts_noExn (env : Env) (text : String) (outs : List SinkOutcome)
    (h : NoExn outs) :
    (sendPosts env text outs).2.2 = none ∧ NoExn (sendPosts env text outs).2.1 := by
  obtain ⟨h1, h2⟩ := takeOutcome_noExn outs h
  unfold sendPosts
  cases hL : env.lineNotifyToken with
  | some tok =>
    cases ht : (takeOutcome outs).1 with
    | exn => exact absurd ht h1
    | http s =>
      cases hD : env.discordWebhookUrl with
      | some url =>
        obtain ⟨h3, h4⟩ := takeOutcome_noExn (takeOutcome outs).2 h2
        cases ht2 : (takeOutcome (takeOutcome outs).2).1 with
        | exn => exact absurd ht2 h3
        | http s2 => exact ⟨rfl, h4⟩
      | none => exact ⟨rfl, h2⟩
  | none =>
    cases hD : env.discordWebhookUrl with
    | some url =>
      cases ht2 : (takeOutcome outs).1 with
      | exn => exact absurd ht2 h1
      | http s2 => exact ⟨rfl, h2⟩
    | none => exact ⟨rfl, h⟩

theorem dispatchEvent_noExn (env : Env) (msgT broadcastT : Template)
    (oraw : List (RawRecord × MergeTag)) (uid : Int) (outs : List SinkOutcome)
    (h : NoExn outs) :
    (dispatchEvent env msgT broadcastT oraw uid outs).2.2 ≠ some CheckError.sinkExn
    ∧ NoExn (dispatchEvent env msgT broadcastT oraw uid outs).2.1 := by
  unfold dispatchEvent
  split
  · exact ⟨by simp, h⟩
  · split
    · exact ⟨by simp, h⟩
    · split
      · exact ⟨by simp, h⟩
      · rename_i r2 tb hr2
        rename_i r1 text hr1
        rename_i xs d tail hfil
        obtain ⟨hp1, hp2⟩ := sendPosts_noExn env text outs h
        exact ⟨by simp [hp1], hp2⟩

theorem dispatchEvents_noExn (env : Env) (msgT broadcastT : Template)
    (oraw : List (RawRecord × MergeTag)) (uids : List Int) (outs : List SinkOutcome)
    (h : NoExn outs) :
    (dispatchEvents env msgT broadcastT oraw uids outs).2.2 ≠ some CheckError.sinkExn
    ∧ NoExn (dispatchEvents env msgT broadcastT oraw uids outs).2.1 := by
  induction uids generalizing outs with
  | nil => exact ⟨by simp [dispatchEvents], h⟩
  | cons uid rest ih =>
    obtain ⟨h1, h2⟩ := dispatchEvent_noExn env msgT broadcastT oraw uid outs h
    unfold dispatchEvents
    cases hd : (dispatchEvent env msgT broadcastT oraw uid outs).2.2 with
    | some e =>
      rw [hd] at h1
      exact ⟨h1, h2⟩
    | none =>
      obtain ⟨h3, h4⟩ :=
        ih (dispatchEvent env msgT broadcastT oraw uid outs).2.1 h2
      exact ⟨h3, h4⟩

theorem joinDispatch_noExn (env : Env) (st : LoopState) (nextRaw : List RawRecord)
    (outs : List SinkOutcome) (h : NoExn outs) :
    (joinDispatch env st nextRaw outs).2.2 ≠ some CheckError.sinkExn
    ∧ NoExn (joinDispatch env st nextRaw outs).2.1 :=
  dispatchEvents_noExn env env.joinMessage env.joinBroadcastMessage _ _ outs h

theorem leaveDispatch_noExn (env : Env) (st : LoopState) (nextRaw : List RawRecord)
    (outs : List SinkOutcome) (h : NoExn outs) :
    (leaveDispatch env st nextRaw outs).2.2 ≠ some CheckError.sinkExn
    ∧ NoExn (leaveDispatch env st nextRaw outs).2.1 :=
  dispatchEvents_noExn env env.leaveMessage env.leaveBroadcastMessage _ _ outs h

theorem check_noExn (env : Env) (st : LoopState)
    (fetch : Except Unit (List RawRecord)) (outs : List SinkOutcome)
    (h : NoExn outs) :
    (check env st fetch outs).2.2 ≠ some CheckError.sinkExn := by
  cases fetch with
  | error u => simp [check]
  | ok nextRaw =>
    obtain ⟨hj1, hj2⟩ := joinDispatch_noExn env st nextRaw outs h
    obtain ⟨hl1, hl2⟩ := leaveDispatch_noExn env st nextRaw
      (joinDispatch env st nextRaw outs).2.1 hj2
    simp only [check]
    split
    · rename_i e hj
      rw [hj] at hj1
      exact hj1
    · split
      · rename_i e hl
        rw [hl] at hl1
        exact hl1
      · simp

/-- C4 counterexample: with both sinks configured and the first sink's
post raising (a timeout / connection error), the exception escapes
`check`: the Discord webhook is never posted to and the cycle is cut
short — one sink's failure does block the other sink. -/
theorem C4_counterexample :
    check envW ⟨some [], some []⟩ (Except.ok [⟨"Alice", 1, 7⟩]) [SinkOutcome.exn]
      = ([Cmd.showPlayers, Cmd.broadcast "Alice_joined", Cmd.lineNotify "Alice joined"],
          ⟨some [], some []⟩, some CheckError.sinkExn) := by
  rfl

/-- C4 (amended): a completed HTTP post's status code is never inspected
(and never logged), so an HTTP error status such as 500 blocks nothing —
with exception-free outcomes `check` never fails with a sink error and
the configured second sink is still posted to; but a raised `requests`
exception is not caught per-sink: it aborts the remaining posts and
events of the cycle and propagates out of `check`. -/
theorem C4_amended_http_ignored_exn_propagates :
    (∀ (env : Env) (st : LoopState) (fetch : Except Unit (List RawRecord))
        (outs : List SinkOutcome), NoExn outs →
      (check env st fetch outs).2.2 ≠ some CheckError.sinkExn)
    ∧ (∀ (env : Env) (text : String) (s : Nat) (rest : List SinkOutcome)
        (tok url : String), env.lineNotifyToken = some tok →
        env.discordWebhookUrl = some url →
        Cmd.discordPost text ∈ (sendPosts env text (SinkOutcome.http s :: rest)).1)
    ∧ (∀ (env : Env) (text : String) (rest : List SinkOutcome)
        (tok url : String), env.lineNotifyToken = some tok →
        env.discordWebhookUrl = some url →
        sendPosts env text (SinkOutcome.exn :: rest)
          = ([Cmd.lineNotify text], rest, some CheckError.sinkExn)) := by
  refine ⟨check_noExn, ?_, ?_⟩
  · intro env text s rest tok url htok hurl
    cases rest with
    | nil =>
      unfold sendPosts takeOutcome
      rw [htok, hurl]
      simp
    | cons o rest2 =>
      unfold sendPosts takeOutcome
      rw [htok, hurl]
      cases o <;> simp
  · intro env text rest tok url htok hurl
    unfold sendPosts takeOutcome
    rw [htok]

/-- C4 witness: an HTTP 500 outcome does not make the cycle fail, and the
second sink's post happens; an exception outcome cuts the posts short. -/
theorem C4_witness :
    NoExn [SinkOutcome.http 500]
    ∧ (check envW ⟨some [], some []⟩ (Except.ok []) [SinkOutcome.http 500]).2.2
        ≠ some CheckError.sinkExn
    ∧ envW.lineNotifyToken = some "tok"
    ∧ envW.discordWebhookUrl = some "url"
    ∧ Cmd.discordPost "hi" ∈ (sendPosts envW "hi" [SinkOutcome.http 500]).1
    ∧ sendPosts envW "hi" [SinkOutcome.exn]
        = ([Cmd.lineNotify "hi"], [], some CheckError.sinkExn) := by
  have hne : NoExn [SinkOutcome.http 500] := by
    intro o ho
    rcases List.mem_singleton.mp ho with rfl
    simp
  refine ⟨hne,
    C4_amended_http_ignored_exn_propagates.1 envW ⟨some [], some []⟩
      (Except.ok []) [SinkOutcome.http 500] hne,
    rfl, rfl,
    C4_amended_http_ignored_exn_propagates.2.1 envW "hi" 500 [] "tok" "url" rfl rfl,
    C4_amended_http_ignored_exn_propagates.2.2 envW "hi" [] "tok" "url" rfl rfl⟩

theorem sendPosts_err_cases (env : Env) (text : String) (outs : List SinkOutcome) :
    (sendPosts env text outs).2.2 = none
    ∨ (sendPosts env text outs).2.2 = some CheckError.sinkExn := by
  unfold sendPosts
  split
  · split
    · exact Or.inr rfl
    · split
      · split
        · exact Or.inr rfl
        · exact Or.inl rfl
      · exact Or.inl rfl
  · split
    · split
      · exact Or.inr rfl
      · exact Or.inl rfl
    · exact Or.inl rfl

theorem dispatchEvent_keyErr (env : Env) (msgT broadcastT : Template)
    (oraw : List (RawRecord × MergeTag)) (uid : Int) (outs : List SinkOutcome)
    (k : String)
    (h : (dispatchEvent env msgT broadcastT oraw uid outs).2.2
      = some (CheckError.keyErr k)) :
    dispatchEvent env msgT broadcastT oraw uid outs
      = ([], outs, some (CheckError.keyErr k)) := by
  unfold dispatchEvent at h ⊢
  split
  · rename_i hfil
    simp only [hfil] at h
    simp at h
  · rename_i xs d tail hfil
    simp only [hfil] at h
    split
    · rename_i k2 hr1
      simp only [hr1] at h
      simp at h
      rw [h]
    · rename_i text hr1
      simp only [hr1] at h
      split
      · rename_i k2 hr2
        simp only [hr2] at h
        simp at h
        rw [h]
      · rename_i tb hr2
        simp only [hr2] at h
        rcases sendPosts_err_cases env text outs with hc | hc <;>
          simp [hc] at h

theorem loopIter_err (env : Env) (st : LoopState)
    (fetch : Except Unit (List RawRecord)) (outs : List SinkOutcome)
    (e : CheckError) (h : (check env st fetch outs).2.2 = some e) :
    (loopIter false env st fetch outs).2.2
      = IterResult.continues
          ["Error: " ++ errText e,
           "Restarting in " ++ toString env.waitTime ++ " seconds..."] env.waitTime
    ∧ (loopIter true env st fetch outs).2.2 = IterResult.exits e := by
  unfold loopIter
  rcases hc : check env st fetch outs with ⟨cmds, st2, err⟩
  rw [hc] at h
  simp only at h
  rw [h]
  exact ⟨rfl, rfl⟩

/-- A configuration whose join template names a placeholder key (`level`)
that the merged raw rows do not carry. -/
def envBad : Env :=
  ⟨none, none,
    [TItem.ph "level"],
    [TItem.ph "name"],
    [TItem.ph "name"],
    [TItem.ph "name"],
    false, 5⟩

/-- C3 counterexample: a join event whose template names the absent key
`level` makes `check` itself fail — the `KeyError` propagates to the
caller of the dispatch loop instead of being logged there, and not even
the event's own broadcast is issued. -/
theorem C3_counterexample :
    (check envBad ⟨some [], some []⟩ (Except.ok [⟨"Alice", 1, 7⟩]) []).2.2
      = some (CheckError.keyErr "level")
    ∧ (check envBad ⟨some [], some []⟩ (Except.ok [⟨"Alice", 1, 7⟩]) []).1
      = [Cmd.showPlayers] :=
  ⟨rfl, rfl⟩

/-- C3 (amended): a message template naming a placeholder absent from the
merged raw row raises `KeyError` out of the per-event dispatch: the
failing event issues no command at all, the remaining events of the cycle
are skipped, and the error propagates out of `check` to the outer loop —
which under `python -O` logs it and retries, and under the default
interpreter re-raises it. -/
theorem C3_amended_template_error_aborts_cycle :
    (∀ (env : Env) (msgT broadcastT : Template)
        (oraw : List (RawRecord × MergeTag)) (uid : Int) (rest : List Int)
        (outs : List SinkOutcome) (k : String),
      (dispatchEvent env msgT broadcastT oraw uid outs).2.2
          = some (CheckError.keyErr k) →
      dispatchEvents env msgT broadcastT oraw (uid :: rest) outs
        = ([], outs, some (CheckError.keyErr k)))
    ∧ (∀ (env : Env) (st : LoopState) (fetch : Except Unit (List RawRecord))
        (outs : List SinkOutcome) (k : String),
      (check env st fetch outs).2.2 = some (CheckError.keyErr k) →
      (loopIter false env st fetch outs).2.2
        = IterResult.continues
            ["Error: " ++ errText (CheckError.keyErr k),
             "Restarting in " ++ toString env.waitTime ++ " seconds..."]
            env.waitTime
      ∧ (loopIter true env st fetch outs).2.2
        = IterResult.exits (CheckError.keyErr k)) := by
  constructor
  · intro env msgT broadcastT oraw uid rest outs k h
    have hev := dispatchEvent_keyErr env msgT broadcastT oraw uid outs k h
    unfold dispatchEvents
    rw [hev]
  · intro env st fetch outs k h
    exact loopIter_err env st fetch outs (CheckError.keyErr k) h

/-- C3 witness: the amended behavior at the concrete failing template. -/
theorem C3_witness :
    ((dispatchEvent envBad [TItem.ph "level"] [TItem.ph "name"]
        [(⟨"Alice", 1, 7⟩, MergeTag.both)] 1 []).2.2
      = some (CheckError.keyErr "level"))
    ∧ dispatchEvents envBad [TItem.ph "level"] [TItem.ph "name"]
        [(⟨"Alice", 1, 7⟩, MergeTag.both)] [1, 2] []
        = ([], [], some (CheckError.keyErr "level"))
    ∧ ((check envBad ⟨some [], some []⟩ (Except.ok [⟨"Bob", 2, 8⟩]) []).2.2
        = some (CheckError.keyErr "level"))
    ∧ (loopIter false envBad ⟨some [], some []⟩ (Except.ok [⟨"Bob", 2, 8⟩]) []).2.2
        = IterResult.continues
            ["Error: " ++ errText (CheckError.keyErr "level"),
             "Restarting in " ++ toString envBad.waitTime ++ " seconds..."]
            envBad.waitTime
    ∧ (loopIter true envBad ⟨some [], some []⟩ (Except.ok [⟨"Bob", 2, 8⟩]) []).2.2
        = IterResult.exits (CheckError.keyErr "level") := by
  obtain ⟨hf, ht⟩ := C3_amended_template_error_aborts_cycle.2 envBad
    ⟨some [], some []⟩ (Except.ok [⟨"Bob", 2, 8⟩]) [] "level" rfl
  exact ⟨rfl,
    C3_amended_template_error_aborts_cycle.1 envBad [TItem.ph "level"]
      [TItem.ph "name"] [(⟨"Alice", 1, 7⟩, MergeTag.both)] 1 [2] [] "level" rfl,
    rfl, hf, ht⟩

theorem sendPosts_cmds (env : Env) (text : String) (outs : List SinkOutcome) :
    ∀ c ∈ (sendPosts env text outs).1,
      c = Cmd.lineNotify text ∨ c = Cmd.discordPost text := by
  unfold sendPosts
  split
  · split
    · simp
    · split
      · split <;> simp
      · simp
  · split
    · split <;> simp
    · simp

theorem dispatchEvent_cmds (env : Env) (msgT broadcastT : Template)
    (oraw : List (RawRecord × MergeTag)) (uid : Int) (outs : List SinkOutcome) :
    ∀ c ∈ (dispatchEvent env msgT broadcastT oraw uid outs).1,
      (∃ s, c = Cmd.broadcast s) ∨ (∃ s, c = Cmd.lineNotify s)
        ∨ ∃ s, c = Cmd.discordPost s := by
  unfold dispatchEvent
  split
  · simp
  · split
    · simp
    · split
      · simp
      · rename_i r2 tb hr2
        rename_i r1 text hr1
        rename_i xs d tail hfil
        intro c hc
        rcases List.mem_cons.mp hc with rfl | hc2
        · exact Or.inl ⟨underscoreSpaces tb, rfl⟩
        · rcases sendPosts_cmds env text outs c hc2 with rfl | rfl
          · exact Or.inr (Or.inl ⟨text, rfl⟩)
          · exact Or.inr (Or.inr ⟨text, rfl⟩)

theorem dispatchEvents_cmds (env : Env) (msgT broadcastT : Template)
    (oraw : List (RawRecord × MergeTag)) (uids : List Int) :
    ∀ (outs : List SinkOutcome) (c : Cmd),
      c ∈ (dispatchEvents env msgT broadcastT oraw uids outs).1 →
      (∃ s, c = Cmd.broadcast s) ∨ (∃ s, c = Cmd.lineNotify s)
        ∨ ∃ s, c = Cmd.discordPost s := by
  induction uids with
  | nil =>
    intro outs c hc
    simp [dispatchEvents] at hc
  | cons uid rest ih =>
    intro outs c hc
    unfold dispatchEvents at hc
    rcases hd : (dispatchEvent env msgT broadcastT oraw uid outs).2.2 with - | e
    · rw [hd] at hc
      simp only [] at hc
      rcases List.mem_append.mp hc with h1 | h2
      · exact dispatchEvent_cmds env msgT broadcastT oraw uid outs c h1
      · exact ih _ c h2
    · rw [hd] at hc
      simp only [] at hc
      exact dispatchEvent_cmds env msgT broadcastT oraw uid outs c hc

theorem joinDispatch_cmds (env : Env) (st : LoopState) (nextRaw : List RawRecord)
    (outs : List SinkOutcome) :
    ∀ c ∈ (joinDispatch env st nextRaw outs).1,
      (∃ s, c = Cmd.broadcast s) ∨ (∃ s, c = Cmd.lineNotify s)
        ∨ ∃ s, c = Cmd.discordPost s :=
  fun c hc => dispatchEvents_cmds env env.joinMessage env.joinBroadcastMessage
    _ _ outs c hc

theorem leaveDispatch_cmds (env : Env) (st : LoopState) (nextRaw : List RawRecord)
    (outs : List SinkOutcome) :
    ∀ c ∈ (leaveDispatch env st nextRaw outs).1,
      (∃ s, c = Cmd.broadcast s) ∨ (∃ s, c = Cmd.lineNotify s)
        ∨ ∃ s, c = Cmd.discordPost s :=
  fun c hc => dispatchEvents_cmds env env.leaveMessage env.leaveBroadcastMessage
    _ _ outs c hc

/-- Shape of a successful cycle: the trace is `ShowPlayers`, the join
commands, the leave commands, then the shutdown commands, and the state
is replaced by the current tables. -/
theorem check_ok_trace (env : Env) (st : LoopState) (nextRaw : List RawRecord)
    (outs : List SinkOutcome)
    (herr : (check env st (Except.ok nextRaw) outs).2.2 = none) :
    check env st (Except.ok nextRaw) outs
      = (Cmd.showPlayers :: ((joinDispatch env st nextRaw outs).1
            ++ (leaveDispatch env st nextRaw
                  (joinDispatch env st nextRaw outs).2.1).1
            ++ shutdownCmds env st nextRaw),
        ⟨some (filterDrop nextRaw), some nextRaw⟩, none) := by
  simp only [check] at herr ⊢
  split at herr
  · simp at herr
  · split at herr
    · simp at herr
    · rfl

/-- A cycle where both the previous and the current snapshot are empty
issues only the `ShowPlayers` fetch. -/
theorem check_both_empty (env : Env) (st : LoopState) (nextRaw : List RawRecord)
    (outs : List SinkOutcome)
    (h1 : st.prevData = some []) (hcur : filterDrop nextRaw = []) :
    check env st (Except.ok nextRaw) outs
      = ([Cmd.showPlayers], ⟨some [], some nextRaw⟩, none) := by
  unfold check joinDispatch leaveDispatch shutdownCmds
  simp only [h1, hcur, Option.getD_some, joinRows_self, leaveRows_self, List.map_nil]
  simp only [dispatchEvents]
  rw [if_neg]
  · simp
  · rintro ⟨-, -, hne⟩
    exact hne rfl

/-- C5: with shutdown-on-empty configured, a cycle whose current snapshot
is empty while the previous one was not ends its trace with exactly one
`Save` followed by exactly one `Shutdown 5` (neither appears earlier in
the trace), and leaves `prev_data` empty — so the next cycle, where both
snapshots are empty, issues no `Save` and no `Shutdown` at all. -/
theorem C5_shutdown_one_shot :
    (∀ (env : Env) (st : LoopState) (nextRaw : List RawRecord)
        (outs : List SinkOutcome) (p : List Record),
      env.restartOnLastLeave = true → st.prevData = some p → p ≠ [] →
      filterDrop nextRaw = [] →
      (check env st (Except.ok nextRaw) outs).2.2 = none →
      (∃ pre, (check env st (Except.ok nextRaw) outs).1
          = pre ++ [Cmd.save, Cmd.shutdown "5"]
        ∧ Cmd.save ∉ pre ∧ (∀ g, Cmd.shutdown g ∉ pre))
      ∧ ((check env st (Except.ok nextRaw) outs).2.1).prevData = some [])
    ∧ (∀ (env : Env) (st : LoopState) (nextRaw : List RawRecord)
        (outs : List SinkOutcome),
      st.prevData = some [] → filterDrop nextRaw = [] →
      Cmd.save ∉ (check env st (Except.ok nextRaw) outs).1
      ∧ (∀ g, Cmd.shutdown g ∉ (check env st (Except.ok nextRaw) outs).1)) := by
  constructor
  · intro env st nextRaw outs p hrestart hprev hpne hcur herr
    have htr := check_ok_trace env st nextRaw outs herr
    have hshut : shutdownCmds env st nextRaw = [Cmd.save, Cmd.shutdown "5"] := by
      unfold shutdownCmds
      rw [if_pos]
      refine ⟨by rw [hrestart], hcur, ?_⟩
      rw [hprev]
      exact hpne
    constructor
    · refine ⟨Cmd.showPlayers :: ((joinDispatch env st nextRaw outs).1
        ++ (leaveDispatch env st nextRaw
              (joinDispatch env st nextRaw outs).2.1).1), ?_, ?_, ?_⟩
      · rw [htr, hshut]
        simp [List.append_assoc]
      · intro hmem
        rcases List.mem_cons.mp hmem with heq | hmem2
        · exact Cmd.noConfusion heq
        · rcases List.mem_append.mp hmem2 with hcj | hcl
          · rcases joinDispatch_cmds env st nextRaw outs _ hcj with
              ⟨s, hs⟩ | ⟨s, hs⟩ | ⟨s, hs⟩ <;> exact Cmd.noConfusion hs
          · rcases leaveDispatch_cmds env st nextRaw _ _ hcl with
              ⟨s, hs⟩ | ⟨s, hs⟩ | ⟨s, hs⟩ <;> exact Cmd.noConfusion hs
      · intro g hmem
        rcases List.mem_cons.mp hmem with heq | hmem2
        · exact Cmd.noConfusion heq
        · rcases List.mem_append.mp hmem2 with hcj | hcl
          · rcases joinDispatch_cmds env st nextRaw outs _ hcj with
              ⟨s, hs⟩ | ⟨s, hs⟩ | ⟨s, hs⟩ <;> exact Cmd.noConfusion hs
          · rcases leaveDispatch_cmds env st nextRaw _ _ hcl with
              ⟨s, hs⟩ | ⟨s, hs⟩ | ⟨s, hs⟩ <;> exact Cmd.noConfusion hs
    · rw [htr]
      simp [hcur]
  · intro env st nextRaw outs h1 hcur
    have hc := check_both_empty env st nextRaw outs h1 hcur
    rw [hc]
    constructor
    · intro hmem
      rcases List.mem_singleton.mp hmem with heq
      exact Cmd.noConfusion heq
    · intro g hmem
      rcases List.mem_singleton.mp hmem with heq
      exact Cmd.noConfusion heq

/-- C5 witness: Alice leaves an otherwise-empty server under
shutdown-on-empty, then an empty-to-empty cycle follows. -/
theorem C5_witness :
    envW.restartOnLastLeave = true
    ∧ (⟨some [⟨"Alice", 1⟩], some [⟨"Alice", 1, 7⟩]⟩ : LoopState).prevData
        = some [⟨"Alice", 1⟩]
    ∧ ([⟨"Alice", 1⟩] : List Record) ≠ []
    ∧ filterDrop [] = []
    ∧ (check envW ⟨some [⟨"Alice", 1⟩], some [⟨"Alice", 1, 7⟩]⟩
        (Except.ok []) []).2.2 = none
    ∧ ((∃ pre, (check envW ⟨some [⟨"Alice", 1⟩], some [⟨"Alice", 1, 7⟩]⟩
          (Except.ok []) []).1 = pre ++ [Cmd.save, Cmd.shutdown "5"]
        ∧ Cmd.save ∉ pre ∧ (∀ g, Cmd.shutdown g ∉ pre))
      ∧ ((check envW ⟨some [⟨"Alice", 1⟩], some [⟨"Alice", 1, 7⟩]⟩
            (Except.ok []) []).2.1).prevData = some [])
    ∧ (Cmd.save ∉ (check envW ⟨some [], some []⟩ (Except.ok []) []).1
      ∧ ∀ g, Cmd.shutdown g ∉ (check envW ⟨some [], some []⟩ (Except.ok []) []).1) :=
  ⟨rfl, rfl, by simp, rfl, rfl,
    C5_shutdown_one_shot.1 envW ⟨some [⟨"Alice", 1⟩], some [⟨"Alice", 1, 7⟩]⟩
      [] [] [⟨"Alice", 1⟩] rfl rfl (by simp) rfl rfl,
    C5_shutdown_one_shot.2 envW ⟨some [], some []⟩ [] [] rfl rfl⟩

/-- Every row of either input table appears (with some indicator tag) in
the outer merge. -/
theorem outerMerge_mem {α : Type} [DecidableEq α] (left right : List α) (r : α)
    (hr : r ∈ left ∨ r ∈ right) :
    ∃ tag, (r, tag) ∈ outerMerge left right := by
  unfold outerMerge
  by_cases hL : r ∈ left
  · exact ⟨if r ∈ right then MergeTag.both else MergeTag.leftOnly,
      List.mem_append_left _ (List.mem_map.mpr ⟨r, hL, rfl⟩)⟩
  · rcases hr with h | h
    · exact absurd h hL
    · refine ⟨MergeTag.rightOnly,
        List.mem_append_right _ (List.mem_map.mpr ⟨r, ?_, rfl⟩)⟩
      exact List.mem_filter.mpr ⟨h, by simp [hL]⟩

/-- The `playeruid` of every Joined or Left event has at least one
matching row in the outer merge of the raw tables: the event's row came
from a filtered table, whose rows all stem from the corresponding raw
table. -/
theorem lookupRows_nonempty (nextRaw prevRaw : List RawRecord) (uid : Int)
    (h : uid ∈ (joinRows (filterDrop nextRaw) (filterDrop prevRaw)).map
          Record.playeruid
      ∨ uid ∈ (leaveRows (filterDrop nextRaw) (filterDrop prevRaw)).map
          Record.playeruid) :
    (outerMerge nextRaw prevRaw).filter
      (fun p => decide (p.1.playeruid = uid)) ≠ [] := by
  have key : ∃ rr : RawRecord, (rr ∈ nextRaw ∨ rr ∈ prevRaw)
      ∧ rr.playeruid = uid := by
    rcases h with h | h
    · rcases List.mem_map.mp h with ⟨r, hrJ, hrUid⟩
      rw [joinRows_eq] at hrJ
      have hrCur := (List.mem_filter.mp hrJ).1
      rcases List.mem_map.mp hrCur with ⟨rr, hrr, hEq⟩
      refine ⟨rr, Or.inl ((List.mem_filter.mp hrr).1), ?_⟩
      rw [show rr.playeruid = (dropSteamid rr).playeruid from rfl, hEq, hrUid]
    · rcases List.mem_map.mp h with ⟨r, hrL, hrUid⟩
      rw [leaveRows_eq] at hrL
      have hrPrev := (List.mem_filter.mp hrL).1
      rcases List.mem_map.mp hrPrev with ⟨rr, hrr, hEq⟩
      refine ⟨rr, Or.inr ((List.mem_filter.mp hrr).1), ?_⟩
      rw [show rr.playeruid = (dropSteamid rr).playeruid from rfl, hEq, hrUid]
  rcases key with ⟨rr, hmem, huid⟩
  rcases outerMerge_mem nextRaw prevRaw rr hmem with ⟨tag, htag⟩
  intro hnil
  have := List.filter_eq_nil_iff.mp hnil (rr, tag) htag
  simp [huid] at this

theorem dispatchEvent_ne_indexErr (env : Env) (msgT broadcastT : Template)
    (oraw : List (RawRecord × MergeTag)) (uid : Int) (outs : List SinkOutcome)
    (h : oraw.filter (fun p => decide (p.1.playeruid = uid)) ≠ []) :
    (dispatchEvent env msgT broadcastT oraw uid outs).2.2
      ≠ some CheckError.indexErr := by
  unfold dispatchEvent
  split
  · rename_i hfil
    exact absurd hfil h
  · split
    · simp
    · split
      · simp
      · rename_i r2 tb hr2
        rename_i r1 text hr1
        rename_i xs d tail hfil
        rcases sendPosts_err_cases env text outs with hc | hc <;> simp [hc]

theorem dispatchEvents_ne_indexErr (env : Env) (msgT broadcastT : Template)
    (oraw : List (RawRecord × MergeTag)) (uids : List Int)
    (h : ∀ uid ∈ uids, oraw.filter (fun p => decide (p.1.playeruid = uid)) ≠ []) :
    ∀ outs, (dispatchEvents env msgT broadcastT oraw uids outs).2.2
      ≠ some CheckError.indexErr := by
  induction uids with
  | nil =>
    intro outs
    simp [dispatchEvents]
  | cons uid rest ih =>
    intro outs
    unfold dispatchEvents
    cases hd : (dispatchEvent env msgT broadcastT oraw uid outs).2.2 with
    | some e =>
      have hne := dispatchEvent_ne_indexErr env msgT broadcastT oraw uid outs
        (h uid (List.mem_cons_self _ _))
      rw [hd] at hne
      exact hne
    | none =>
      exact ih (fun u hu => h u (List.mem_cons_of_mem _ hu)) _

theorem joinDispatch_ne_indexErr (env : Env) (st : LoopState)
    (nextRaw prevRaw : List RawRecord) (outs : List SinkOutcome)
    (h1 : st.prevData = some (filterDrop prevRaw))
    (h2 : st.prevDataRaw = some prevRaw) :
    (joinDispatch env st nextRaw outs).2.2 ≠ some CheckError.indexErr := by
  unfold joinDispatch
  rw [h1, h2]
  simp only [Option.getD_some]
  exact dispatchEvents_ne_indexErr env env.joinMessage env.joinBroadcastMessage
    _ _ (fun uid hu => lookupRows_nonempty nextRaw prevRaw uid (Or.inl hu)) outs

theorem leaveDispatch_ne_indexErr (env : Env) (st : LoopState)
    (nextRaw prevRaw : List RawRecord) (outs : List SinkOutcome)
    (h1 : st.prevData = some (filterDrop prevRaw))
    (h2 : st.prevDataRaw = some prevRaw) :
    (leaveDispatch env st nextRaw outs).2.2 ≠ some CheckError.indexErr := by
  unfold leaveDispatch
  rw [h1, h2]
  simp only [Option.getD_some]
  exact dispatchEvents_ne_indexErr env env.leaveMessage env.leaveBroadcastMessage
    _ _ (fun uid hu => lookupRows_nonempty nextRaw prevRaw uid (Or.inr hu)) outs

theorem check_ne_indexErr (env : Env) (st : LoopState)
    (nextRaw prevRaw : List RawRecord) (outs : List SinkOutcome)
    (h1 : st.prevData = some (filterDrop prevRaw))
    (h2 : st.prevDataRaw = some prevRaw) :
    (check env st (Except.ok nextRaw) outs).2.2 ≠ some CheckError.indexErr := by
  have hj1 := joinDispatch_ne_indexErr env st nextRaw prevRaw outs h1 h2
  have hl1 := leaveDispatch_ne_indexErr env st nextRaw prevRaw
    (joinDispatch env st nextRaw outs).2.1 h1 h2
  simp only [check]
  split
  · rename_i e hj
    rw [hj] at hj1
    exact hj1
  · split
    · rename_i e hl
      rw [hl] at hl1
      exact hl1
    · simp

/-- C10: every Joined or Left event produced by diffing the
steamid-dropped snapshots has at least one matching row (by `playeruid`)
in the outer merge of the raw tables, so when the loop state's filtered
table is the filtered form of its raw table — the invariant `check`
itself re-establishes every cycle — the `.iloc[0]` lookup never raises
`IndexError`. -/
theorem C10_raw_lookup_never_fails :
    (∀ (nextRaw prevRaw : List RawRecord) (uid : Int),
      (uid ∈ (joinRows (filterDrop nextRaw) (filterDrop prevRaw)).map
            Record.playeruid
        ∨ uid ∈ (leaveRows (filterDrop nextRaw) (filterDrop prevRaw)).map
            Record.playeruid) →
      (outerMerge nextRaw prevRaw).filter
        (fun p => decide (p.1.playeruid = uid)) ≠ [])
    ∧ (∀ (env : Env) (st : LoopState) (nextRaw prevRaw : List RawRecord)
        (outs : List SinkOutcome),
      st.prevData = some (filterDrop prevRaw) →
      st.prevDataRaw = some prevRaw →
      (check env st (Except.ok nextRaw) outs).2.2 ≠ some CheckError.indexErr) :=
  ⟨lookupRows_nonempty, check_ne_indexErr⟩

/-- C10 witness: Alice joining from an empty previous snapshot. -/
theorem C10_witness :
    ((1 : Int) ∈ (joinRows (filterDrop [⟨"Alice", 1, 7⟩]) (filterDrop [])).map
        Record.playeruid
      ∨ (1 : Int) ∈ (leaveRows (filterDrop [⟨"Alice", 1, 7⟩]) (filterDrop [])).map
        Record.playeruid)
    ∧ (outerMerge [⟨"Alice", 1, 7⟩] ([] : List RawRecord)).filter
        (fun p => decide (p.1.playeruid = 1)) ≠ []
    ∧ (⟨some [], some []⟩ : LoopState).prevData = some (filterDrop [])
    ∧ (⟨some [], some []⟩ : LoopState).prevDataRaw = some []
    ∧ (check envW ⟨some [], some []⟩ (Except.ok [⟨"Alice", 1, 7⟩]) []).2.2
        ≠ some CheckError.indexErr :=
  ⟨Or.inl (by decide),
    C10_raw_lookup_never_fails.1 [⟨"Alice", 1, 7⟩] [] 1 (Or.inl (by decide)),
    rfl, rfl,
    C10_raw_lookup_never_fails.2 envW ⟨some [], some []⟩ [⟨"Alice", 1, 7⟩] []
      [] rfl rfl⟩

/-- C8 counterexample: a non-numeric identity field does not make
`pd.read_csv` fail — the row is parsed and kept, and with the identity
column then of object dtype the row even survives the `!= 0` filter —
a data row with too few fields is padded with NaN, not rejected, and an
over-long first data row is accepted too (its extra leading fields go to
the index). -/
theorem C8_counterexample :
    readCsv ["name", "playeruid", "steamid"] [["Alice", "zzz", "7"]]
      = Except.ok [[Cell.val "Alice", Cell.val "zzz", Cell.val "7"]]
    ∧ columnNumeric [Cell.val "zzz"] = false
    ∧ cellKeptByFilter false (Cell.val "zzz") = true
    ∧ readCsv ["name", "playeruid", "steamid"] [["Alice"]]
      = Except.ok [[Cell.val "Alice", Cell.na, Cell.na]]
    ∧ readCsv ["name", "playeruid", "steamid"] [["idx", "Alice", "1", "7"]]
      = Except.ok [[Cell.val "idx", Cell.val "Alice", Cell.val "1", Cell.val "7"]] := by
  refine ⟨rfl, ?_, rfl, rfl, rfl⟩
  rfl

/-- Row-by-row tokenizing against a fixed expected width fails exactly
when some row is wider than that width. -/
theorem readCsvRows_err_iff (width : Nat) (rows : List (List String)) :
    (∃ e, readCsvRows width rows = Except.error e)
      ↔ ∃ row ∈ rows, width < row.length := by
  induction rows with
  | nil =>
    constructor
    · rintro ⟨e, he⟩
      exact absurd he (by simp [readCsvRows])
    · rintro ⟨row, hmem, -⟩
      exact absurd hmem (List.not_mem_nil row)
  | cons row rest ih =>
    by_cases hlong : width < row.length
    · constructor
      · intro _
        exact ⟨row, List.mem_cons_self _ _, hlong⟩
      · intro _
        refine ⟨"Error tokenizing data", ?_⟩
        unfold readCsvRows parseRow
        rw [if_pos hlong]
    · constructor
      · rintro ⟨e, he⟩
        unfold readCsvRows parseRow at he
        rw [if_neg hlong] at he
        rcases hr : readCsvRows width rest with e2 | others
        · rcases ih.mp ⟨e2, hr⟩ with ⟨row2, hm2, hl2⟩
          exact ⟨row2, List.mem_cons_of_mem _ hm2, hl2⟩
        · rw [hr] at he
          simp at he
      · rintro ⟨row2, hm2, hl2⟩
        rcases List.mem_cons.mp hm2 with rfl | hm3
        · exact absurd hl2 hlong
        · rcases ih.mpr ⟨row2, hm3, hl2⟩ with ⟨e, he⟩
          refine ⟨e, ?_⟩
          unfold readCsvRows parseRow
          rw [if_neg hlong, he]

/-- C8 (amended): the tokenizer establishes its expected field count as
the wider of the header and the first data row — an over-long first data
row raises nothing, its extra leading fields becoming the index — and
raises `ParserError` exactly when some later row is wider than that
count; rows with fewer fields are padded with missing values and kept,
and row contents — including a non-numeric identity field — never make
the parse fail. -/
theorem C8_amended_parse_fails_only_on_wide_rows
    (header : List String) (rows : List (List String)) :
    (∃ e, readCsv header rows = Except.error e)
      ↔ ∃ row ∈ rows.tail, max header.length (rows.headD []).length < row.length := by
  cases rows with
  | nil => simp [readCsv]
  | cons first rest =>
    simp only [readCsv, List.tail_cons, List.headD_cons]
    rw [readCsvRows_err_iff]
    constructor
    · rintro ⟨row, hm, hl⟩
      rcases List.mem_cons.mp hm with rfl | hm2
      · exact absurd hl (not_lt.mpr (le_max_right _ _))
      · exact ⟨row, hm2, hl⟩
    · rintro ⟨row, hm, hl⟩
      exact ⟨row, List.mem_cons_of_mem _ hm, hl⟩

/-- C8 witness: a second data row wider than the width the first row
established is the one shape the parse rejects. -/
theorem C8_witness :
    ∃ e, readCsv ["name", "playeruid", "steamid"]
        [["a", "1", "7"], ["b", "2", "8", "x"]] = Except.error e :=
  (C8_amended_parse_fails_only_on_wide_rows ["name", "playeruid", "steamid"]
      [["a", "1", "7"], ["b", "2", "8", "x"]]).mpr
    ⟨["b", "2", "8", "x"], by decide, by decide⟩
